import Mathlib

/-!
Verification of the ebay-find-api client (src/index.js, src/unnamed/part_000).

The JavaScript values flowing through the library are modelled by the
inductive `Value` (JSON-like data: null/undefined at a field is modelled as
the field being absent from the association list; an explicit JS `null`
value is `Value.null`). JS objects are association lists of string keys.
-/

namespace EbayFind

inductive Value where
  | null : Value
  | bool : Bool → Value
  | num : Int → Value
  | str : String → Value
  | arr : List Value → Value
  | obj : List (String × Value) → Value
  deriving Repr

/-- JS truthiness of a value (`!v` in the source is `not (jsTruthy v)`).
Arrays and objects, including empty ones, are truthy in JS. -/
def jsTruthy : Value → Bool
  | Value.null => false
  | Value.bool b => b
  | Value.num n => n != 0
  | Value.str s => s != ""
  | Value.arr _ => true
  | Value.obj _ => true

/-- Truthiness of a possibly-absent value: `undefined` is falsy. -/
def jsTruthyOpt : Option Value → Bool
  | none => false
  | some v => jsTruthy v

/-- Property read on an association list (first matching key, as JS objects
have unique keys). -/
def lookupField : List (String × Value) → String → Option Value
  | [], _ => none
  | (k, v) :: fs, key => if k = key then some v else lookupField fs key

/-- JS property read `v[key]` for the keys used by this library: objects
look the key up, every other value yields `undefined` (reads on `null` or
`undefined` themselves, which throw in JS, are handled explicitly at the
call sites that can reach them). -/
def getField : Value → String → Option Value
  | Value.obj fs, key => lookupField fs key
  | _, _ => none

/-- JS property write `o[key] = v`: replace the first binding in place, or
append a new binding, as JS object insertion order does. -/
def setField : List (String × Value) → String → Value → List (String × Value)
  | [], key, v => [(key, v)]
  | (k, w) :: fs, key, v =>
    if k = key then (k, v) :: fs else (k, w) :: setField fs key v

/-- src/index.js line 3: `const forceArray = arr => [].concat(arr !== undefined ? arr : []);`
`[].concat` spreads an array argument one level and wraps anything else. -/
def forceArray : Option Value → List Value
  | none => []
  | some (Value.arr es) => es
  | some v => [v]

/-!
src/index.js lines 50-56 (identical in part_000 lines 34-40):

    const flatten = (arr) => {
        for (r in arr) {
            if (Array.isArray(arr[r]) && arr[r].length === 1)
                arr[r] = flatten(arr[r][0]);
        }
        return arr;
    }

`for (r in arr)` enumerates the direct keys of an object and the indices of
an array (and nothing for primitives). A field whose value is an array of
length exactly 1 is replaced by `flatten` of its sole element; every other
field is left exactly as it is (no recursion into it).
-/

mutual

def flatten : Value → Value
  | Value.obj fs => Value.obj (flattenFields fs)
  | Value.arr es => Value.arr (flattenElems es)
  | v => v

def flattenFields : List (String × Value) → List (String × Value)
  | [] => []
  | (k, v) :: fs => (k, collapseEntry v) :: flattenFields fs

def flattenElems : List Value → List Value
  | [] => []
  | v :: vs => collapseEntry v :: flattenElems vs

/-- The loop body for one field: singleton arrays are replaced by the
flattening of their sole element, everything else is untouched. -/
def collapseEntry : Value → Value
  | Value.arr [e] => flatten e
  | v => v

end

/-- Is the value an array of length exactly 1? -/
def isSingletonArr : Value → Bool
  | Value.arr [_] => true
  | _ => false

/-- No direct field (or element) of the value is a singleton array. -/
def topFree : Value → Bool
  | Value.obj fs => fs.all (fun kv => !(isSingletonArr kv.2))
  | Value.arr es => es.all (fun e => !(isSingletonArr e))
  | _ => true

/-- Is the value a JS array (`Array.isArray`)? -/
def isJsArray : Value → Bool
  | Value.arr _ => true
  | _ => false

/-!
JS string coercion `String(v)`, as used by `parseInt` on a non-string
argument. Inside an array join, `null` and `undefined` render as the empty
string; a top-level `null` renders as "null"; absent values (undefined)
are handled by the caller.
-/

mutual

def toJsString : Value → String
  | Value.null => "null"
  | Value.bool b => if b then "true" else "false"
  | Value.num n => toString n
  | Value.str s => s
  | Value.arr es => joinElems es
  | Value.obj _ => "[object Object]"

def joinElems : List Value → String
  | [] => ""
  | [v] => elemToString v
  | v :: vs => elemToString v ++ "," ++ joinElems vs

def elemToString : Value → String
  | Value.null => ""
  | v => toJsString v

end

def digitsToNat (ds : List Char) : Nat :=
  ds.foldl (fun acc c => 10 * acc + (c.toNat - 48)) 0

/-- JS `parseInt(s, 10)`: skip leading whitespace, read an optional sign and
then the longest run of decimal digits; `none` models `NaN` (no digits). -/
def jsParseInt10 (s : String) : Option Int :=
  let cs := s.data.dropWhile (fun c => c = ' ' || c = '\t' || c = '\n' || c = '\r')
  match cs with
  | '-' :: rest =>
    let ds := rest.takeWhile Char.isDigit
    if ds.isEmpty then none else some (-(digitsToNat ds : Int))
  | '+' :: rest =>
    let ds := rest.takeWhile Char.isDigit
    if ds.isEmpty then none else some ((digitsToNat ds : Int))
  | _ =>
    let ds := cs.takeWhile Char.isDigit
    if ds.isEmpty then none else some ((digitsToNat ds : Int))

/-- `parseInt(x, 10) || 0` applied to a possibly-absent value: `undefined`
coerces to the string "undefined" (hence NaN hence 0); NaN and 0 both give
0 through `|| 0`. -/
def parseIntOrZero : Option Value → Int
  | none => (jsParseInt10 "undefined").getD 0
  | some v => (jsParseInt10 (toJsString v)).getD 0

/-- JS strict equality of a possibly-absent value against a string literal
(`x === "lit"`). -/
def strictEqStr : Option Value → String → Bool
  | some (Value.str s), t => s == t
  | _, _ => false

/-- The errors surfaced by this library. `jsTypeError` is a TypeError the
runtime itself throws (a property read on `undefined` or `null`);
`error` is an explicit `new Error(message)`; `serviceFailure` is the
`throw response` / `reject(response)` path for `ack === "Failure"`. -/
inductive EbayError where
  | jsTypeError : String → EbayError
  | error : String → EbayError
  | serviceFailure : Value → EbayError
  deriving Repr

/-- The normalized result record built by `findByProductParser`
(src/index.js lines 118-126). Absent response fields are `none`. -/
structure ProductSearchResult where
  ack : Option Value
  version : Option Value
  timestamp : Option Value
  searchResultCount : Int
  searchResult : List Value
  paginationOutput : Option Value
  itemSearchUrl : Option Value
  deriving Repr

/-- src/index.js lines 20-30. -/
def findOperations : List String :=
  ["findCompletedItems", "findItemsAdvanced", "findItemsByCategory",
   "findItemsByKeywords", "findItemsByProduct", "findItemsIneBayStores",
   "getHistograms", "getSearchKeywordsRecommendation", "getVersion"]

/-- src/index.js line 32. -/
def validOperation (op : String) : Bool := findOperations.contains op

/-- src/index.js lines 34-39 (part_000 lines 20-25). -/
def productIdTypes : List String := ["ReferenceID", "ISBN", "UPC", "EAN"]

/-- src/index.js line 41. -/
def validProductIdType (type : String) : Bool := productIdTypes.contains type

/-- Spreading a source object into an object literal: assign each binding of
`src` into `dst` in order. -/
def spreadInto (dst src : List (String × Value)) : List (String × Value) :=
  src.foldl (fun acc kv => setField acc kv.1 kv.2) dst

/-- src/index.js lines 85-89: the object literal
`{ ...other, OPERATION-NAME: operation, ...baseParams }`, evaluated as JS
does: spread `other` into a fresh object, assign the literal entry, then
spread `baseParams` (later assignments win on key collision). -/
def buildParams (other baseParams : List (String × Value)) (operation : String) :
    List (String × Value) :=
  spreadInto (setField (spreadInto [] other) "OPERATION-NAME" (Value.str operation)) baseParams

/-- The process-wide client handle created by `init` (src/index.js lines
5-16): `new Ebay({ app_id: appId })`. The module variable `ebay` is
modelled as an `Option Handle` argument: `none` before `init` runs. -/
structure Handle where
  app_id : String
  deriving Repr

/-- src/index.js lines 12-16. -/
def init (appId : String) : Handle := { app_id := appId }

/-- How far a search invocation gets before (or at) the single remote call:
`thrown` is a synchronous throw before the Promise is even created,
`rejected` is a rejection of the returned Promise that happens without any
remote call, `calling` means `ebay.get('finding', params, cb)` is reached
with the given parameter mapping. -/
inductive CallPhase where
  | thrown : EbayError → CallPhase
  | rejected : EbayError → CallPhase
  | calling : List (String × Value) → CallPhase
  deriving Repr

/-- src/index.js lines 80-90, the synchronous part of
`findCall(operation)(parser)(baseParams)(other)`: validate the operation,
then read `ebay.get` — when `ebay` is still `null` this property read
throws a TypeError inside the Promise executor, which rejects the Promise
before any remote call; otherwise the remote call is issued with the merged
parameters. -/
def findCall (ebay : Option Handle) (operation : String)
    (baseParams other : List (String × Value)) : CallPhase :=
  if !validOperation operation then
    CallPhase.thrown (EbayError.error
      ("invalid operation " ++ operation ++ " use one of ["
        ++ String.intercalate " " findOperations ++ "]"))
  else
    match ebay with
    | none => CallPhase.rejected (EbayError.jsTypeError
        "Cannot read properties of null (reading get)")
    | some _ => CallPhase.calling (buildParams other baseParams operation)

/-- src/index.js lines 90-103, the response side of `findCall` on transport
success: normalize the whole payload with `flatten`, destructure the
`${operation}Response` field, and reject with the EmptyResponse error when
that field is falsy (`!response`); otherwise resolve with the envelope,
which line 103 then hands to the parser. -/
def findCallResponse (operation : String) (data : Value) : Except EbayError Value :=
  match getField (flatten data) (operation ++ "Response") with
  | some response =>
    if jsTruthy response then Except.ok response
    else Except.error (EbayError.error "eBay Response Empty")
  | none => Except.error (EbayError.error "eBay Response Empty")

/-- src/index.js lines 111-113: `if (searchResult && searchResult.item)
searchResult.item = forceArray(searchResult.item);` — the in-place item
coercion, written as a structure-returning update. A non-object
`searchResult` has no `item` property, and a falsy one short-circuits. -/
def coerceItem (response : Value) : Value :=
  match response with
  | Value.obj fs =>
    match lookupField fs "searchResult" with
    | some (Value.obj srFs) =>
      match lookupField srFs "item" with
      | some it =>
        if jsTruthy it then
          Value.obj (setField fs "searchResult"
            (Value.obj (setField srFs "item" (Value.arr (forceArray (some it))))))
        else response
      | none => response
    | _ => response
  | _ => response

/-- The element list behind `searchResult.item.map(flatten)`; when the map
runs, the coercion has already made the item field an array. -/
def jsElems : Option Value → List Value
  | some (Value.arr es) => es
  | some v => [v]
  | none => []

/-- src/index.js lines 106-127: `findByProductParser`. The item coercion
runs first; `ack === 'Failure'` throws the (coerced) response; otherwise
the result record is built — evaluating `searchResult['@count']` throws a
TypeError when `searchResult` is `undefined` or `null`. -/
def findByProductParser (response : Value) : Except EbayError ProductSearchResult :=
  let response1 := coerceItem response
  if strictEqStr (getField response1 "ack") "Failure" then
    Except.error (EbayError.serviceFailure response1)
  else
    match getField response1 "searchResult" with
    | none =>
      Except.error (EbayError.jsTypeError
        "Cannot read properties of undefined (reading @count)")
    | some Value.null =>
      Except.error (EbayError.jsTypeError
        "Cannot read properties of null (reading @count)")
    | some sr =>
      Except.ok
        { ack := getField response1 "ack"
          version := getField response1 "version"
          timestamp := getField response1 "timestamp"
          searchResultCount := parseIntOrZero (getField sr "@count")
          searchResult :=
            if jsTruthy sr && jsTruthyOpt (getField sr "item") then
              (jsElems (getField sr "item")).map flatten
            else []
          paginationOutput := getField response1 "paginationOutput"
          itemSearchUrl := getField response1 "itemSearchURL" }

/-- The dispatcher composed with the parser: the overall outcome of the
Promise chain for a transport-successful payload `data`. -/
def findCallThen (operation : String) (data : Value) :
    Except EbayError ProductSearchResult :=
  match findCallResponse operation data with
  | Except.ok response => findByProductParser response
  | Except.error e => Except.error e

/-- src/index.js lines 129-134: `callFindByProduct` validates the product id
type and then dispatches `findItemsByProduct` with the base parameters
`{ 'productId.@type': type, productId: id }`. -/
def callFindByProduct (ebay : Option Handle) (type : String) (id : Value)
    (other : List (String × Value)) : CallPhase :=
  if !validProductIdType type then
    CallPhase.thrown (EbayError.error
      ("unknown type " ++ type ++ ", use one of ["
        ++ String.intercalate " " productIdTypes ++ "]"))
  else
    findCall ebay "findItemsByProduct"
      [("productId.@type", Value.str type), ("productId", id)] other

/-- src/index.js lines 136-138: `callFindItemsAdvanced` dispatches
`findItemsAdvanced` with `{ descriptionSearch: true, keywords: str }`. -/
def callFindItemsAdvanced (ebay : Option Handle) (s : String)
    (other : List (String × Value)) : CallPhase :=
  findCall ebay "findItemsAdvanced"
    [("descriptionSearch", Value.bool true), ("keywords", Value.str s)] other

/-- What `findItemsByProduct` returns: with a falsy `id` it returns a
function awaiting the identifier (which then awaits the extra options);
with a truthy `id` the call proceeds immediately. -/
inductive FindItemsByProductRet where
  | curried : (Value → List (String × Value) → CallPhase) → FindItemsByProductRet
  | invoked : CallPhase → FindItemsByProductRet

/-- src/index.js lines 149-154: `findItemsByProduct(type, id, other = {})` —
`if (!id)` returns `lookupId => callFindByProduct({ type, id: lookupId })`
with no validation of any kind at that point. -/
def findItemsByProduct (ebay : Option Handle) (type : String) (id : Option Value)
    (other : List (String × Value)) : FindItemsByProductRet :=
  if !jsTruthyOpt id then
    FindItemsByProductRet.curried (fun lookupId o => callFindByProduct ebay type lookupId o)
  else
    FindItemsByProductRet.invoked (callFindByProduct ebay type (id.getD Value.null) other)

/-- Applying the function returned by a partial `findItemsByProduct`
application to an identifier and then to the extra options. -/
def applyCurried : FindItemsByProductRet → Value → List (String × Value) → CallPhase
  | FindItemsByProductRet.curried f, id, other => f id other
  | FindItemsByProductRet.invoked p, _, _ => p

/-- src/index.js line 162: `findItemsByProduct('UPC')(upc)(other)`. -/
def findItemsByUpc (ebay : Option Handle) (upc : Value)
    (other : List (String × Value)) : CallPhase :=
  applyCurried (findItemsByProduct ebay "UPC" none []) upc other

/-- src/index.js line 164. -/
def findItemsByReferenceId (ebay : Option Handle) (refId : Value)
    (other : List (String × Value)) : CallPhase :=
  applyCurried (findItemsByProduct ebay "ReferenceID" none []) refId other

/-- src/index.js line 166. -/
def findItemsByIsbn (ebay : Option Handle) (isbn : Value)
    (other : List (String × Value)) : CallPhase :=
  applyCurried (findItemsByProduct ebay "ISBN" none []) isbn other

/-- src/index.js line 168. -/
def findItemsByEan (ebay : Option Handle) (ean : Value)
    (other : List (String × Value)) : CallPhase :=
  applyCurried (findItemsByProduct ebay "EAN" none []) ean other

/-- src/index.js line 170: `callFindItemsAdvanced(keywords)(other)`. -/
def findItemsByKeywords (ebay : Option Handle) (keywords : String)
    (other : List (String × Value)) : CallPhase :=
  callFindItemsAdvanced ebay keywords other

namespace Legacy

/-- src/unnamed/part_000 lines 79-85: the object literal `{ ...other,
'OPERATION-NAME': 'findItemsByProduct', 'productId.@type': type,
productId: id }`. -/
def params (other : List (String × Value)) (type : String) (id : Value) :
    List (String × Value) :=
  setField
    (setField
      (setField (spreadInto [] other) "OPERATION-NAME" (Value.str "findItemsByProduct"))
      "productId.@type" (Value.str type))
    "productId" id

/-- src/unnamed/part_000 lines 72-86, the synchronous part of the legacy
`findItemsByProduct`: it checks the client handle first (`if (!ebay) throw
new Error('call ebay-find-api init first')`), then the product id type,
then reaches the remote call. -/
def findItemsByProduct (ebay : Option Handle) (type : String) (id : Value)
    (other : List (String × Value)) : CallPhase :=
  match ebay with
  | none => CallPhase.thrown (EbayError.error "call ebay-find-api init first")
  | some _ =>
    if !validProductIdType type then
      CallPhase.thrown (EbayError.error
        ("unknown type " ++ type ++ ", use ReferenceID, ISBN, UPC, or EAN"))
    else
      CallPhase.calling (params other type id)

/-- src/unnamed/part_000 line 134: `findItemsByProduct.bind(this, 'UPC')`. -/
def findItemsByUpc (ebay : Option Handle) (upc : Value)
    (other : List (String × Value)) : CallPhase :=
  findItemsByProduct ebay "UPC" upc other

end Legacy

/-! ## Helper lemmas -/

/-- A field that is not a singleton array is left untouched by the loop
body of `flatten`. -/
theorem collapseEntry_eq_self : ∀ {v : Value}, isSingletonArr v = false → collapseEntry v = v
  | Value.null, _ => rfl
  | Value.bool _, _ => rfl
  | Value.num _, _ => rfl
  | Value.str _, _ => rfl
  | Value.obj _, _ => rfl
  | Value.arr [], _ => rfl
  | Value.arr [_], h => by simp [isSingletonArr] at h
  | Value.arr (_ :: _ :: _), _ => rfl

/-- Field lookup commutes with the field pass of `flatten`. -/
theorem lookupField_flattenFields (fs : List (String × Value)) (key : String) :
    lookupField (flattenFields fs) key = (lookupField fs key).map collapseEntry := by
  induction fs with
  | nil => rfl
  | cons kv tl ih =>
    obtain ⟨k, v⟩ := kv
    by_cases hk : k = key
    · simp [flattenFields, lookupField, hk]
    · simp [flattenFields, lookupField, hk, ih]

/-- If no direct field holds a singleton array, the field pass is the
identity. -/
theorem flattenFields_eq_self : ∀ {fs : List (String × Value)},
    (∀ kv ∈ fs, isSingletonArr kv.2 = false) → flattenFields fs = fs := by
  intro fs h
  induction fs with
  | nil => rfl
  | cons kv tl ih =>
    obtain ⟨k, v⟩ := kv
    have h1 : isSingletonArr v = false := h (k, v) (List.mem_cons_self _ _)
    have h2 : ∀ kv ∈ tl, isSingletonArr kv.2 = false :=
      fun kv hkv => h kv (List.mem_cons_of_mem _ hkv)
    simp [flattenFields, collapseEntry_eq_self h1, ih h2]

/-- If no element is a singleton array, the element pass is the identity. -/
theorem flattenElems_eq_self : ∀ {es : List Value},
    (∀ e ∈ es, isSingletonArr e = false) → flattenElems es = es := by
  intro es h
  induction es with
  | nil => rfl
  | cons e tl ih =>
    have h1 : isSingletonArr e = false := h e (List.mem_cons_self _ _)
    have h2 : ∀ e ∈ tl, isSingletonArr e = false :=
      fun e he => h e (List.mem_cons_of_mem _ he)
    simp [flattenElems, collapseEntry_eq_self h1, ih h2]

/-- `flatten` is the identity on any structure with no direct
singleton-array field or element. -/
theorem flatten_eq_self_of_topFree : ∀ {v : Value}, topFree v = true → flatten v = v
  | Value.null, _ => rfl
  | Value.bool _, _ => rfl
  | Value.num _, _ => rfl
  | Value.str _, _ => rfl
  | Value.arr es, h => by
    have h2 : ∀ e ∈ es, isSingletonArr e = false := by
      intro e he
      have := List.all_eq_true.mp h e he
      simpa using this
    simp [flatten, flattenElems_eq_self h2]
  | Value.obj fs, h => by
    have h2 : ∀ kv ∈ fs, isSingletonArr kv.2 = false := by
      intro kv hkv
      have := List.all_eq_true.mp h kv hkv
      simpa using this
    simp [flatten, flattenFields_eq_self h2]

/-! ## Claim C1 -/

/-- C1 (counterexample): the claim says every singleton sequence nested at
any depth is collapsed and that the replacement is re-checked so that a
field holding `[[x]]` collapses all the way to `x`. On the code, a field
holding `[["x"]]` only loses one wrapper (`flatten` recurses into the sole
element but never re-checks the replacement itself), and a singleton
sitting under a non-singleton object field is not visited at all. -/
theorem c1_counterexample :
    flatten (Value.obj [("f", Value.arr [Value.arr [Value.str "x"]])])
      = Value.obj [("f", Value.arr [Value.str "x"])]
    ∧ flatten (Value.obj [("f", Value.arr [Value.arr [Value.str "x"]])])
      ≠ Value.obj [("f", Value.str "x")]
    ∧ flatten (Value.obj [("f", Value.obj [("g", Value.arr [Value.str "x"])])])
      = Value.obj [("f", Value.obj [("g", Value.arr [Value.str "x"])])] := by
  refine ⟨rfl, ?_, rfl⟩
  intro h
  have h2 : Value.obj [("f", Value.arr [Value.str "x"])]
      = Value.obj [("f", Value.str "x")] := h
  simp at h2

/-- C1 (amended): for every direct field of an object, if the field holds a
sequence of length exactly 1, `flatten` replaces the field by its sole
element with `flatten` applied to that element (so singleton fields inside
the element collapse, but the replacement itself is not re-checked); a
field whose value is not a singleton sequence (length 0, length 2 or more,
or not a sequence at all) is left exactly as it is and is not recursed
into. -/
theorem c1_flatten_field_behavior (fs : List (String × Value)) (key : String) (v : Value)
    (h : lookupField fs key = some v) :
    (isSingletonArr v = false → getField (flatten (Value.obj fs)) key = some v)
    ∧ (∀ e, v = Value.arr [e] → getField (flatten (Value.obj fs)) key = some (flatten e)) := by
  constructor
  · intro hv
    show lookupField (flattenFields fs) key = some v
    rw [lookupField_flattenFields, h]
    simp [collapseEntry_eq_self hv]
  · intro e he
    show lookupField (flattenFields fs) key = some (flatten e)
    rw [lookupField_flattenFields, h, he]
    rfl

/-- Witness for C1 at concrete inputs: a length-2 field is untouched and a
singleton field becomes the flattening of its sole element. -/
theorem c1_witness :
    isSingletonArr (Value.arr [Value.num 1, Value.num 2]) = false
    ∧ getField (flatten (Value.obj
        [("f", Value.arr [Value.num 1, Value.num 2]),
         ("g", Value.arr [Value.obj [("h", Value.arr [Value.str "x"])]])])) "f"
      = some (Value.arr [Value.num 1, Value.num 2])
    ∧ getField (flatten (Value.obj
        [("f", Value.arr [Value.num 1, Value.num 2]),
         ("g", Value.arr [Value.obj [("h", Value.arr [Value.str "x"])]])])) "g"
      = some (flatten (Value.obj [("h", Value.arr [Value.str "x"])])) :=
  ⟨rfl,
   (c1_flatten_field_behavior
     [("f", Value.arr [Value.num 1, Value.num 2]),
      ("g", Value.arr [Value.obj [("h", Value.arr [Value.str "x"])]])]
     "f" (Value.arr [Value.num 1, Value.num 2]) rfl).1 rfl,
   (c1_flatten_field_behavior
     [("f", Value.arr [Value.num 1, Value.num 2]),
      ("g", Value.arr [Value.obj [("h", Value.arr [Value.str "x"])]])]
     "g" (Value.arr [Value.obj [("h", Value.arr [Value.str "x"])]]) rfl).2
     (Value.obj [("h", Value.arr [Value.str "x"])]) rfl⟩

/-! ## Claim C2 -/

/-- C2 (counterexample): `flatten` is not idempotent. For
`x = {f: [["a"]]}`, the first pass leaves `{f: ["a"]}` (one wrapper
remains) and the second pass collapses that remaining singleton, so
`flatten (flatten x) differs from `flatten x`. -/
theorem c2_counterexample :
    flatten (flatten (Value.obj [("f", Value.arr [Value.arr [Value.str "a"]])]))
      ≠ flatten (Value.obj [("f", Value.arr [Value.arr [Value.str "a"]])]) := by
  intro h
  have h2 : Value.obj [("f", Value.str "a")]
      = Value.obj [("f", Value.arr [Value.str "a"])] := h
  simp at h2

/-- C2 (amended): `flatten` is idempotent exactly on the inputs whose
output no longer contains a direct singleton-array field: whenever
`flatten x` has no direct field or element holding a singleton array,
normalizing it again yields the same structure. -/
theorem c2_flatten_idempotent_on_normalized (x : Value)
    (h : topFree (flatten x) = true) : flatten (flatten x) = flatten x :=
  flatten_eq_self_of_topFree h

/-- Witness for C2 at a concrete input whose normal form is singleton
free. -/
theorem c2_witness :
    topFree (flatten (Value.obj [("f", Value.arr [Value.str "a"]), ("g", Value.num 3)])) = true
    ∧ flatten (flatten (Value.obj [("f", Value.arr [Value.str "a"]), ("g", Value.num 3)]))
      = flatten (Value.obj [("f", Value.arr [Value.str "a"]), ("g", Value.num 3)]) :=
  ⟨rfl, c2_flatten_idempotent_on_normalized
    (Value.obj [("f", Value.arr [Value.str "a"]), ("g", Value.num 3)]) rfl⟩

/-! ## Claim C3 -/

/-- C3 (counterexample): in src/index.js no search function checks the
client handle. Calling `findItemsByUpc` before `init` does fail before any
remote call, but with the TypeError from reading `get` off the null
handle inside the Promise executor — not with the NotInitialized error
(`new Error('call ebay-find-api init first')`, which only the legacy
module throws). -/
theorem c3_counterexample :
    findItemsByUpc none (Value.str "036000291452") []
      = CallPhase.rejected (EbayError.jsTypeError "Cannot read properties of null (reading get)")
    ∧ findItemsByUpc none (Value.str "036000291452") []
      ≠ CallPhase.thrown (EbayError.error "call ebay-find-api init first")
    ∧ findItemsByUpc none (Value.str "036000291452") []
      ≠ CallPhase.rejected (EbayError.error "call ebay-find-api init first") := by
  have e : findItemsByUpc none (Value.str "036000291452") []
      = CallPhase.rejected (EbayError.jsTypeError "Cannot read properties of null (reading get)") := rfl
  refine ⟨e, ?_, ?_⟩ <;> rw [e] <;> simp

/-- C3 (amended): every public search function of src/index.js invoked
with the client handle still unset fails before any remote call is issued,
but with the null-handle TypeError rejection rather than a NotInitialized
error; only the legacy module (src/unnamed/part_000) throws the
NotInitialized error `call ebay-find-api init first`, and it does so before
its type validation. -/
theorem c3_uninitialized_behavior :
    (∀ upc other, findItemsByUpc none upc other
      = CallPhase.rejected (EbayError.jsTypeError "Cannot read properties of null (reading get)"))
    ∧ (∀ refId other, findItemsByReferenceId none refId other
      = CallPhase.rejected (EbayError.jsTypeError "Cannot read properties of null (reading get)"))
    ∧ (∀ isbn other, findItemsByIsbn none isbn other
      = CallPhase.rejected (EbayError.jsTypeError "Cannot read properties of null (reading get)"))
    ∧ (∀ ean other, findItemsByEan none ean other
      = CallPhase.rejected (EbayError.jsTypeError "Cannot read properties of null (reading get)"))
    ∧ (∀ keywords other, findItemsByKeywords none keywords other
      = CallPhase.rejected (EbayError.jsTypeError "Cannot read properties of null (reading get)"))
    ∧ (∀ type id other, validProductIdType type = true → jsTruthy id = true →
        findItemsByProduct none type (some id) other
          = FindItemsByProductRet.invoked (CallPhase.rejected
              (EbayError.jsTypeError "Cannot read properties of null (reading get)")))
    ∧ (∀ type id other, Legacy.findItemsByProduct none type id other
      = CallPhase.thrown (EbayError.error "call ebay-find-api init first")) := by
  have hop : validOperation "findItemsByProduct" = true := rfl
  refine ⟨fun _ _ => rfl, fun _ _ => rfl, fun _ _ => rfl, fun _ _ => rfl,
    fun _ _ => rfl, ?_, fun _ _ _ => rfl⟩
  intro type id other h1 h2
  simp [findItemsByProduct, jsTruthyOpt, h2, callFindByProduct, h1, findCall, hop]

/-- Witness for C3 at concrete inputs, covering a wrapper, the generic
entry point with a valid type, and the legacy module. -/
theorem c3_witness :
    validProductIdType "UPC" = true
    ∧ jsTruthy (Value.str "036000291452") = true
    ∧ findItemsByUpc none (Value.str "036000291452") []
      = CallPhase.rejected (EbayError.jsTypeError "Cannot read properties of null (reading get)")
    ∧ findItemsByProduct none "UPC" (some (Value.str "036000291452")) []
      = FindItemsByProductRet.invoked (CallPhase.rejected
          (EbayError.jsTypeError "Cannot read properties of null (reading get)"))
    ∧ Legacy.findItemsByProduct none "UPC" (Value.str "036000291452") []
      = CallPhase.thrown (EbayError.error "call ebay-find-api init first") :=
  ⟨rfl, rfl,
   c3_uninitialized_behavior.1 (Value.str "036000291452") [],
   (c3_uninitialized_behavior.2.2.2.2.2.1) "UPC" (Value.str "036000291452") [] rfl rfl,
   (c3_uninitialized_behavior.2.2.2.2.2.2) "UPC" (Value.str "036000291452") []⟩

/-! ## Claim C4 -/

/-- C4 (counterexample): the dispatcher guard is `if (!response)`, and the
empty mapping is truthy in JS. For a transport-successful payload whose
envelope field is the empty mapping, the dispatcher resolves with it and
hands it to the parser (which then dies on the absent `searchResult`),
instead of rejecting with the EmptyResponse error as the claim states. -/
theorem c4_counterexample :
    findCallResponse "findItemsByProduct"
        (Value.obj [("findItemsByProductResponse", Value.obj [])])
      = Except.ok (Value.obj [])
    ∧ findCallResponse "findItemsByProduct"
        (Value.obj [("findItemsByProductResponse", Value.obj [])])
      ≠ Except.error (EbayError.error "eBay Response Empty")
    ∧ findCallThen "findItemsByProduct"
        (Value.obj [("findItemsByProductResponse", Value.obj [])])
      = Except.error (EbayError.jsTypeError
          "Cannot read properties of undefined (reading @count)") := by
  have e : findCallResponse "findItemsByProduct"
      (Value.obj [("findItemsByProductResponse", Value.obj [])])
      = Except.ok (Value.obj []) := rfl
  refine ⟨e, ?_, rfl⟩
  rw [e]
  simp

/-- C4 (amended): after normalization, if the `${operationName}Response`
field of the payload is absent or falsy, the dispatcher rejects with the
EmptyResponse error and the parser is never invoked; if the field holds
any truthy value — including the empty mapping, which is truthy — the
dispatcher resolves with it and the parser is invoked on it. -/
theorem c4_empty_response (operation : String) (data : Value) :
    (jsTruthyOpt (getField (flatten data) (operation ++ "Response")) = false →
      findCallResponse operation data = Except.error (EbayError.error "eBay Response Empty"))
    ∧ (∀ v, getField (flatten data) (operation ++ "Response") = some v → jsTruthy v = true →
      findCallResponse operation data = Except.ok v
      ∧ findCallThen operation data = findByProductParser v) := by
  cases hg : getField (flatten data) (operation ++ "Response") with
  | none =>
    refine ⟨fun _ => ?_, fun v hv => ?_⟩
    · simp [findCallResponse, hg]
    · exact absurd hv (by simp)
  | some w =>
    refine ⟨fun hfalse => ?_, fun v hv htr => ?_⟩
    · simp only [jsTruthyOpt] at hfalse
      simp [findCallResponse, hg, hfalse]
    · obtain rfl : w = v := by injection hv
      constructor
      · simp [findCallResponse, hg, htr]
      · simp [findCallThen, findCallResponse, hg, htr]

/-- Witness for C4 at concrete inputs: an absent envelope rejects with
EmptyResponse; an empty-mapping envelope is resolved and forwarded to the
parser. -/
theorem c4_witness :
    jsTruthyOpt (getField (flatten (Value.obj [])) ("findItemsByProduct" ++ "Response")) = false
    ∧ findCallResponse "findItemsByProduct" (Value.obj [])
      = Except.error (EbayError.error "eBay Response Empty")
    ∧ getField (flatten (Value.obj [("findItemsByProductResponse", Value.obj [])]))
        ("findItemsByProduct" ++ "Response") = some (Value.obj [])
    ∧ jsTruthy (Value.obj []) = true
    ∧ findCallThen "findItemsByProduct" (Value.obj [("findItemsByProductResponse", Value.obj [])])
      = findByProductParser (Value.obj []) :=
  ⟨rfl,
   (c4_empty_response "findItemsByProduct" (Value.obj [])).1 rfl,
   rfl, rfl,
   ((c4_empty_response "findItemsByProduct"
      (Value.obj [("findItemsByProductResponse", Value.obj [])])).2
      (Value.obj []) rfl rfl).2⟩

/-! ## Claim C5 -/

/-- C5 (code bug): for a response body with `ack` not equal to Failure and
`searchResult` entirely absent, the claim (and the adjacent guard
`searchResult && searchResult.item ? ... : []` in the source) says the
parser resolves with an empty `searchResult` and count 0, but line 122
evaluates `searchResult['@count']` unconditionally, which throws a
TypeError on the undefined `searchResult`, so the call rejects instead of
resolving. -/
theorem c5_parser_typeerror_on_absent_searchResult :
    findByProductParser (Value.obj
      [("ack", Value.str "Success"), ("version", Value.str "1.13.0"),
       ("timestamp", Value.str "2020-01-01T00:00:00.000Z")])
    = Except.error (EbayError.jsTypeError
        "Cannot read properties of undefined (reading @count)") := rfl

/-! ## Claim C6 -/

/-- Reading back a freshly assigned key. -/
theorem lookupField_setField (fs : List (String × Value)) (k : String) (v : Value)
    (key : String) :
    lookupField (setField fs k v) key = if k = key then some v else lookupField fs key := by
  induction fs with
  | nil =>
    by_cases hk : k = key <;> simp [setField, lookupField, hk]
  | cons kv tl ih =>
    obtain ⟨k0, w⟩ := kv
    by_cases h0 : k0 = k
    · subst h0
      by_cases hk : k0 = key <;> simp [setField, lookupField, hk]
    · by_cases hk : k0 = key
      · subst hk
        have : ¬(k = k0) := fun hh => h0 hh.symm
        simp [setField, lookupField, h0, this]
      · simp [setField, lookupField, h0, hk, ih]

/-- A successful lookup means the key occurs in the list. -/
theorem mem_keys_of_lookupField (fs : List (String × Value)) (key : String) (v : Value)
    (h : lookupField fs key = some v) : key ∈ fs.map Prod.fst := by
  induction fs with
  | nil => simp [lookupField] at h
  | cons kv tl ih =>
    obtain ⟨k0, w⟩ := kv
    by_cases h0 : k0 = key
    · simp [h0]
    · simp only [lookupField, h0, if_false] at h
      simp [ih h]

/-- Spreading an object with pairwise-distinct keys into `dst`: the source
wins on collision, `dst` answers otherwise. -/
theorem lookupField_spreadInto (src : List (String × Value)) (dst : List (String × Value))
    (key : String) (h : (src.map Prod.fst).Nodup) :
    lookupField (spreadInto dst src) key =
      match lookupField src key with
      | some v => some v
      | none => lookupField dst key := by
  induction src generalizing dst with
  | nil => rfl
  | cons kv tl ih =>
    obtain ⟨k0, v0⟩ := kv
    simp only [List.map_cons, List.nodup_cons] at h
    obtain ⟨hk0, hnd⟩ := h
    have e : spreadInto dst ((k0, v0) :: tl) = spreadInto (setField dst k0 v0) tl := rfl
    rw [e, ih (setField dst k0 v0) hnd]
    cases hl : lookupField tl key with
    | some w =>
      have hmem : key ∈ tl.map Prod.fst := mem_keys_of_lookupField _ _ _ hl
      have hne : ¬(k0 = key) := fun hh => hk0 (hh ▸ hmem)
      simp [lookupField, hne, hl]
    | none =>
      by_cases hk : k0 = key
      · simp [lookupField, hk, lookupField_setField]
      · simp [lookupField, hk, hl, lookupField_setField]

/-- C6: the dispatcher issues the single remote call with the object
literal `{ ...other, OPERATION-NAME: operation, ...baseParams }`; on any
key collision `baseParams` beats the OPERATION-NAME literal and both beat
`other` (later spreads win). -/
theorem c6_param_merge (h : Handle) (operation : String)
    (baseParams other : List (String × Value)) (key : String)
    (hop : validOperation operation = true)
    (hB : (baseParams.map Prod.fst).Nodup) (hO : (other.map Prod.fst).Nodup) :
    findCall (some h) operation baseParams other
      = CallPhase.calling (buildParams other baseParams operation)
    ∧ lookupField (buildParams other baseParams operation) key =
        (match lookupField baseParams key with
         | some v => some v
         | none =>
           if "OPERATION-NAME" = key then some (Value.str operation)
           else lookupField other key) := by
  constructor
  · simp [findCall, hop]
  · show lookupField
      (spreadInto (setField (spreadInto [] other) "OPERATION-NAME" (Value.str operation))
        baseParams) key = _
    rw [lookupField_spreadInto baseParams _ key hB]
    cases lookupField baseParams key with
    | some v => rfl
    | none =>
      simp only []
      rw [lookupField_setField]
      by_cases hk : "OPERATION-NAME" = key
      · simp [hk]
      · simp only [hk, if_false]
        rw [lookupField_spreadInto other [] key hO]
        cases lookupField other key with
        | some w => rfl
        | none => rfl

/-- Witness for C6 at a concrete collision-heavy input: `other` tries to
override both OPERATION-NAME and productId, the literal sets
OPERATION-NAME, and `baseParams` sets productId; the remote call sees the
baseParams value for productId, the literal operation name, and the
untouched `other` entry for keywords. -/
theorem c6_witness :
    validOperation "findItemsByProduct" = true
    ∧ ([("productId.@type", Value.str "UPC"), ("productId", Value.str "base")].map
        (Prod.fst (α := String) (β := Value))).Nodup
    ∧ ([("keywords", Value.str "k"), ("OPERATION-NAME", Value.str "evil"),
        ("productId", Value.str "o")].map (Prod.fst (α := String) (β := Value))).Nodup
    ∧ findCall (some (init "myAppId")) "findItemsByProduct"
        [("productId.@type", Value.str "UPC"), ("productId", Value.str "base")]
        [("keywords", Value.str "k"), ("OPERATION-NAME", Value.str "evil"),
         ("productId", Value.str "o")]
      = CallPhase.calling (buildParams
          [("keywords", Value.str "k"), ("OPERATION-NAME", Value.str "evil"),
           ("productId", Value.str "o")]
          [("productId.@type", Value.str "UPC"), ("productId", Value.str "base")]
          "findItemsByProduct")
    ∧ lookupField (buildParams
          [("keywords", Value.str "k"), ("OPERATION-NAME", Value.str "evil"),
           ("productId", Value.str "o")]
          [("productId.@type", Value.str "UPC"), ("productId", Value.str "base")]
          "findItemsByProduct") "productId" = some (Value.str "base")
    ∧ lookupField (buildParams
          [("keywords", Value.str "k"), ("OPERATION-NAME", Value.str "evil"),
           ("productId", Value.str "o")]
          [("productId.@type", Value.str "UPC"), ("productId", Value.str "base")]
          "findItemsByProduct") "OPERATION-NAME" = some (Value.str "findItemsByProduct")
    ∧ lookupField (buildParams
          [("keywords", Value.str "k"), ("OPERATION-NAME", Value.str "evil"),
           ("productId", Value.str "o")]
          [("productId.@type", Value.str "UPC"), ("productId", Value.str "base")]
          "findItemsByProduct") "keywords" = some (Value.str "k") :=
  ⟨rfl, by decide, by decide,
   (c6_param_merge (init "myAppId") "findItemsByProduct"
     [("productId.@type", Value.str "UPC"), ("productId", Value.str "base")]
     [("keywords", Value.str "k"), ("OPERATION-NAME", Value.str "evil"),
      ("productId", Value.str "o")] "productId" rfl (by decide) (by decide)).1,
   (c6_param_merge (init "myAppId") "findItemsByProduct"
     [("productId.@type", Value.str "UPC"), ("productId", Value.str "base")]
     [("keywords", Value.str "k"), ("OPERATION-NAME", Value.str "evil"),
      ("productId", Value.str "o")] "productId" rfl (by decide) (by decide)).2,
   (c6_param_merge (init "myAppId") "findItemsByProduct"
     [("productId.@type", Value.str "UPC"), ("productId", Value.str "base")]
     [("keywords", Value.str "k"), ("OPERATION-NAME", Value.str "evil"),
      ("productId", Value.str "o")] "OPERATION-NAME" rfl (by decide) (by decide)).2,
   (c6_param_merge (init "myAppId") "findItemsByProduct"
     [("productId.@type", Value.str "UPC"), ("productId", Value.str "base")]
     [("keywords", Value.str "k"), ("OPERATION-NAME", Value.str "evil"),
      ("productId", Value.str "o")] "keywords" rfl (by decide) (by decide)).2⟩

/-! ## Claim C7 -/

/-- C7: any product identifier type outside the supported set makes
`callFindByProduct` (hence `findItemsByProduct` and its wrappers) throw the
InvalidArgument error listing the valid set, before any remote call is
reached. -/
theorem c7_invalid_type (ebay : Option Handle) (type : String) (id : Value)
    (other : List (String × Value)) (h : validProductIdType type = false) :
    callFindByProduct ebay type id other
      = CallPhase.thrown (EbayError.error
          ("unknown type " ++ type ++ ", use one of ["
            ++ String.intercalate " " productIdTypes ++ "]"))
    ∧ ∀ params, callFindByProduct ebay type id other ≠ CallPhase.calling params := by
  have e : callFindByProduct ebay type id other
      = CallPhase.thrown (EbayError.error
          ("unknown type " ++ type ++ ", use one of ["
            ++ String.intercalate " " productIdTypes ++ "]")) := by
    simp [callFindByProduct, h]
  refine ⟨e, fun params => ?_⟩
  rw [e]
  simp

/-- Witness for C7 at the concrete unsupported type SKU. -/
theorem c7_witness :
    validProductIdType "SKU" = false
    ∧ callFindByProduct (some (init "myAppId")) "SKU" (Value.str "12345") []
      = CallPhase.thrown (EbayError.error
          "unknown type SKU, use one of [ReferenceID ISBN UPC EAN]")
    ∧ callFindByProduct (some (init "myAppId")) "SKU" (Value.str "12345") []
      ≠ CallPhase.calling [] :=
  ⟨rfl,
   (c7_invalid_type (some (init "myAppId")) "SKU" (Value.str "12345") [] rfl).1,
   (c7_invalid_type (some (init "myAppId")) "SKU" (Value.str "12345") [] rfl).2 []⟩

/-! ## Claim C8 -/

/-- The item coercion only rewrites the `searchResult` field; every other
field reads the same before and after it. -/
theorem getField_coerceItem_ne (r : Value) (key : String) (hk : key ≠ "searchResult") :
    getField (coerceItem r) key = getField r key := by
  cases r with
  | obj fs =>
    unfold coerceItem
    cases hsr : lookupField fs "searchResult" with
    | none => simp [hsr]
    | some sr =>
      cases sr with
      | obj srFs =>
        cases hit : lookupField srFs "item" with
        | none => simp [hsr, hit]
        | some it =>
          by_cases htr : jsTruthy it = true
          · simp only [hsr, hit, htr, if_true, getField]
            rw [lookupField_setField]
            have hne : ¬("searchResult" = key) := fun hh => hk hh.symm
            simp [hne]
          · simp [hsr, hit, htr]
      | null => simp [hsr]
      | bool b => simp [hsr]
      | num n => simp [hsr]
      | str s => simp [hsr]
      | arr es => simp [hsr]
  | null => rfl
  | bool b => rfl
  | num n => rfl
  | str s => rfl
  | arr es => rfl

/-- C8: whenever the unwrapped response body has `ack === "Failure"`, the
parser throws the full response body (with its item field coerced in
place, as the source mutates it before the check) as a ServiceFailure, and
no result record is produced. -/
theorem c8_service_failure (response : Value)
    (h : getField response "ack" = some (Value.str "Failure")) :
    findByProductParser response
      = Except.error (EbayError.serviceFailure (coerceItem response)) := by
  have hack : getField (coerceItem response) "ack" = some (Value.str "Failure") := by
    rw [getField_coerceItem_ne response "ack" (by decide)]
    exact h
  simp [findByProductParser, hack, strictEqStr]

/-- Witness for C8 at a concrete failure body (with a single-object item so
that the coercion visibly rewrites the thrown body). -/
theorem c8_witness :
    getField (Value.obj
      [("ack", Value.str "Failure"),
       ("searchResult", Value.obj [("item", Value.obj [("itemId", Value.str "1")])])])
      "ack" = some (Value.str "Failure")
    ∧ findByProductParser (Value.obj
        [("ack", Value.str "Failure"),
         ("searchResult", Value.obj [("item", Value.obj [("itemId", Value.str "1")])])])
      = Except.error (EbayError.serviceFailure (Value.obj
          [("ack", Value.str "Failure"),
           ("searchResult", Value.obj
             [("item", Value.arr [Value.obj [("itemId", Value.str "1")]])])])) :=
  ⟨rfl,
   c8_service_failure (Value.obj
     [("ack", Value.str "Failure"),
      ("searchResult", Value.obj [("item", Value.obj [("itemId", Value.str "1")])])]) rfl⟩

/-! ## Claim C9 -/

/-- A non-array value is wrapped into a singleton sequence by
`forceArray`. -/
theorem forceArray_eq_singleton : ∀ {v : Value}, isJsArray v = false →
    forceArray (some v) = [v]
  | Value.null, _ => rfl
  | Value.bool _, _ => rfl
  | Value.num _, _ => rfl
  | Value.str _, _ => rfl
  | Value.obj _, _ => rfl
  | Value.arr _, h => by simp [isJsArray] at h

/-- C9: when the service returns `searchResult.item` as a single truthy
non-sequence value together with `ack: "Success"` and a `@count` of "1",
the parser resolves with `searchResult` being the one-element sequence
holding the (normalized) item and `searchResultCount` equal to 1 — the
wire-collapsed scalar is re-wrapped into a sequence. -/
theorem c9_single_item_coerced (v : Value) (h1 : isJsArray v = false)
    (h2 : jsTruthy v = true) :
    findByProductParser (Value.obj
      [("ack", Value.str "Success"),
       ("searchResult", Value.obj [("@count", Value.str "1"), ("item", v)])])
    = Except.ok
        { ack := some (Value.str "Success"), version := none, timestamp := none,
          searchResultCount := 1, searchResult := [flatten v],
          paginationOutput := none, itemSearchUrl := none } := by
  have hf : forceArray (some v) = [v] := forceArray_eq_singleton h1
  have hc : coerceItem (Value.obj
      [("ack", Value.str "Success"),
       ("searchResult", Value.obj [("@count", Value.str "1"), ("item", v)])])
      = Value.obj
        [("ack", Value.str "Success"),
         ("searchResult", Value.obj [("@count", Value.str "1"), ("item", Value.arr [v])])] := by
    simp [coerceItem, lookupField, h2, hf, setField]
  simp [findByProductParser, hc, getField, lookupField, strictEqStr, jsElems,
    jsTruthy, jsTruthyOpt, parseIntOrZero, toJsString, jsParseInt10, digitsToNat]

/-- Witness for C9 at a concrete single-object item. -/
theorem c9_witness :
    isJsArray (Value.obj [("itemId", Value.str "123")]) = false
    ∧ jsTruthy (Value.obj [("itemId", Value.str "123")]) = true
    ∧ findByProductParser (Value.obj
        [("ack", Value.str "Success"),
         ("searchResult", Value.obj
           [("@count", Value.str "1"), ("item", Value.obj [("itemId", Value.str "123")])])])
      = Except.ok
          { ack := some (Value.str "Success"), version := none, timestamp := none,
            searchResultCount := 1,
            searchResult := [Value.obj [("itemId", Value.str "123")]],
            paginationOutput := none, itemSearchUrl := none } :=
  ⟨rfl, rfl,
   c9_single_item_coerced (Value.obj [("itemId", Value.str "123")]) rfl rfl⟩

/-! ## Claim C10 -/

/-- C10: partially applying `findItemsByProduct` with only a type performs
no validation at all — for any type, valid or not, and any client-handle
state it returns the continuation function — and the product-id-type check
only runs when that function is later applied to an identifier, at which
point an unsupported type throws the InvalidArgument error. -/
theorem c10_curried_defers_validation (ebay : Option Handle) (type : String)
    (other : List (String × Value)) (h : validProductIdType type = false) :
    ∃ f, findItemsByProduct ebay type none other = FindItemsByProductRet.curried f
      ∧ ∀ id o, f id o = CallPhase.thrown (EbayError.error
          ("unknown type " ++ type ++ ", use one of ["
            ++ String.intercalate " " productIdTypes ++ "]")) := by
  refine ⟨fun lookupId o => callFindByProduct ebay type lookupId o, rfl, ?_⟩
  intro id o
  simp [callFindByProduct, h]

/-- Witness for C10 at the concrete unsupported type SKU with the client
handle unset: the partial application still returns a function, and its
application throws the InvalidArgument error. -/
theorem c10_witness :
    validProductIdType "SKU" = false
    ∧ ∃ f, findItemsByProduct none "SKU" none [] = FindItemsByProductRet.curried f
      ∧ ∀ id o, f id o = CallPhase.thrown (EbayError.error
          "unknown type SKU, use one of [ReferenceID ISBN UPC EAN]") :=
  ⟨rfl, c10_curried_defers_validation none "SKU" [] rfl⟩

end EbayFind
